import Mathlib

/-!
# wheatley: the android_wlegl bridge (`jni/wlegl.c`)

A shallow embedding of `jni/wlegl.c`.  The file talks to the outside world only
through collaborators (the dynamic loader, the C allocator, the hardware-module
registry, the gralloc device, libwayland and the compositor library).  Every
collaborator call is recorded as an `Event`, in program order, and what a
collaborator answers is read from an `Env`.  The two file-scope statics and the
heap cells holding `struct wlegl` values form the `State`.
-/

namespace Wlegl

/-- A C pointer; `0` is `NULL`. -/
abbrev Ptr := Nat

/-- Addresses of the statics and functions that `wlegl.c` passes by address. -/
inductive Symbol
  | android_wlegl_interface
  | wlegl_interface
  | wlegl_buffer_type
  | wlegl_bind
  deriving DecidableEq, Repr

/-- The fields of `struct wlegl` that `wlegl.c` reads or writes. -/
structure wlegl where
  gralloc : Ptr
  alloc : Ptr
  global : Ptr
  deriving DecidableEq, Repr

/-- A live `struct wl_resource`: its address, its protocol object id and its user
data. -/
structure wl_resource where
  addr : Ptr
  id : Nat
  user_data : Ptr
  deriving DecidableEq, Repr

/-- `wl_resource_get_user_data`. -/
def wl_resource_get_user_data (r : wl_resource) : Ptr := r.user_data

/-- One collaborator call, with its arguments and, where it has one, its result. -/
inductive Event
  | ALOGE (fmt : String)
  | ALOGD (fmt : String)
  | dlopen (path : String) (flag : Int) (ret : Ptr)
  | dlsym (handle : Ptr) (name : String) (ret : Ptr)
  | malloc (ret : Ptr)
  | free (p : Ptr)
  | hw_get_module (fn : Ptr) (id : String) (err : Int) (module : Ptr)
  | gralloc_open (module : Ptr) (err : Int) (device : Ptr)
  | gralloc_close (device : Ptr)
  | wlb_compositor_get_display (compositor : Ptr) (ret : Ptr)
  | wl_global_create (display : Ptr) (iface : Symbol) (version : Nat) (data : Ptr)
      (bind : Symbol) (ret : Ptr)
  | wl_global_destroy (global : Ptr)
  | wlb_compositor_add_buffer_type (compositor : Ptr) (type : Symbol) (data : Ptr)
  | wl_resource_create (client : Ptr) (iface : Symbol) (version : Nat) (id : Nat) (ret : Ptr)
  | wl_client_post_no_memory (client : Ptr)
  | wl_resource_set_implementation (resource : Ptr) (impl : Symbol) (data : Ptr)
      (destroy : Ptr)
  | wlegl_handle_create (resource : wl_resource) (id : Nat) (num_fds : Int) (ints : List Int)
  | wlegl_buffer_create (wlegl : Ptr) (resource : wl_resource) (id : Nat)
      (width height stride format usage : Int) (handle : Ptr)
  deriving DecidableEq, Repr

/-- What the collaborators answer during one call into `wlegl.c`.  An out-parameter
is returned next to the status: the second component is the value the pointed-to
field holds when the collaborator returns. -/
structure Env where
  dlopen : String → Int → Ptr
  dlsym : Ptr → String → Ptr
  malloc : Ptr
  /-- The indeterminate contents of the block `malloc` hands out. -/
  uninit : wlegl
  /-- The function found at address `fn`, called with a module id. -/
  hw_get_module : Ptr → String → Int × Ptr
  gralloc_open : Ptr → Int × Ptr
  wlb_compositor_get_display : Ptr → Ptr
  wl_global_create : Ptr → Symbol → Nat → Ptr → Symbol → Ptr
  wl_resource_create : Ptr → Symbol → Nat → Nat → Ptr

/-- The mutable memory `wlegl.c` works on: the two file-scope statics (lines 53-54)
and the heap cells holding a `struct wlegl`. -/
structure State where
  _libhardware : Ptr
  _hw_get_module : Ptr
  heap : Ptr → Option wlegl

/-- The statics as initialised at lines 53-54, and no bridge allocated. -/
def State.fresh : State :=
  { _libhardware := 0, _hw_get_module := 0, heap := fun _ => none }

/-- Store a `struct wlegl` value at address `p`. -/
def State.store (s : State) (p : Ptr) (w : wlegl) : State :=
  { s with heap := fun q => if q = p then some w else s.heap q }

/-- Release the cell at address `p`. -/
def State.release (s : State) (p : Ptr) : State :=
  { s with heap := fun q => if q = p then none else s.heap q }

/-- How a call ends: it returns a value, or control is transferred through a
`NULL` function pointer or an invalid object pointer (undefined behaviour). -/
inductive Outcome (α : Type)
  | returned (v : α)
  | crashed
  deriving DecidableEq, Repr

/-- The result of running one function of `wlegl.c`: the collaborator calls it
issued, in order, the memory it leaves, and how it ended. -/
structure Step (α : Type) where
  calls : List Event
  state : State
  ret : Outcome α

/-- `RTLD_LAZY` of `<dlfcn.h>`. -/
def RTLD_LAZY : Int := 1

/-- `GRALLOC_HARDWARE_MODULE_ID` of `<hardware/gralloc.h>`. -/
def GRALLOC_HARDWARE_MODULE_ID : String := "gralloc"

/-- Lines 14-19: `wlegl_create_handle` forwards to `wlegl_handle_create`. -/
def wlegl_create_handle (_client : Ptr) (resource : wl_resource) (id : Nat) (num_fds : Int)
    (ints : List Int) (s : State) : Step Unit :=
  { calls := [Event.wlegl_handle_create resource id num_fds ints]
    state := s
    ret := Outcome.returned () }

/-- Lines 21-30: `wlegl_create_buffer` reads the bridge from the user data of the
global resource and the handle from the user data of the handle resource, and
forwards both to `wlegl_buffer_create`. -/
def wlegl_create_buffer (_client : Ptr) (resource : wl_resource) (id : Nat)
    (width height stride format usage : Int) (handle : wl_resource) (s : State) : Step Unit :=
  let wlegl := wl_resource_get_user_data resource
  { calls := [Event.wlegl_buffer_create wlegl resource id width height stride format usage
      (wl_resource_get_user_data handle)]
    state := s
    ret := Outcome.returned () }

/-- Whether `handle` is a handle object bound by the bridge `wlegl`, read off the
calls made so far.  A handle object is bound at line 18, where `wlegl_create_handle`
hands `wlegl_handle_create` the global resource the request came in on, whose user
data is the bridge (lines 26 and 50), and the id of the new object. -/
def bound_by (history : List Event) (wlegl : Ptr) (handle : wl_resource) : Bool :=
  history.any fun ev =>
    match ev with
    | Event.wlegl_handle_create resource id _ _ =>
      wl_resource_get_user_data resource == wlegl && id == handle.id
    | _ => false

/-- The request table `struct android_wlegl_interface`. -/
structure android_wlegl_interface where
  create_handle : Ptr → wl_resource → Nat → Int → List Int → State → Step Unit
  create_buffer : Ptr → wl_resource → Nat → Int → Int → Int → Int → Int → wl_resource →
    State → Step Unit

/-- Lines 32-35: the table installed on every bound resource. -/
def wlegl_interface : android_wlegl_interface :=
  { create_handle := wlegl_create_handle
    create_buffer := wlegl_create_buffer }

/-- The table found at a symbol, for the symbols that are request tables. -/
def request_table : Symbol → Option android_wlegl_interface
  | Symbol.wlegl_interface => some wlegl_interface
  | _ => none

/-- Lines 37-51: `wlegl_bind`. -/
def wlegl_bind (e : Env) (client : Ptr) (data : Ptr) (_version : Nat) (id : Nat)
    (s : State) : Step Unit :=
  let wlegl := data
  let resource := e.wl_resource_create client Symbol.android_wlegl_interface 1 id
  let c1 := [Event.wl_resource_create client Symbol.android_wlegl_interface 1 id resource]
  if resource = 0 then
    { calls := c1 ++ [Event.wl_client_post_no_memory client]
      state := s
      ret := Outcome.returned () }
  else
    { calls := c1 ++ [Event.wl_resource_set_implementation resource Symbol.wlegl_interface
        wlegl 0]
      state := s
      ret := Outcome.returned () }

/-- Lines 79-115 of `wlegl_create`: everything after the loader block.  `pre` holds
the calls already issued by the loader block. -/
def wlegl_create_bridge (e : Env) (compositor : Ptr) (s : State) (pre : List Event) :
    Step Ptr :=
  let wlegl := e.malloc
  let c1 := pre ++ [Event.malloc wlegl]
  if wlegl = 0 then
    { calls := c1 ++ [Event.ALOGE "Failed to allocate wlegl"]
      state := s
      ret := Outcome.returned 0 }
  else
    let w0 := e.uninit
    if s._hw_get_module = 0 then
      -- line 85 calls through a NULL function pointer
      { calls := c1, state := s.store wlegl w0, ret := Outcome.crashed }
    else
      let r1 := e.hw_get_module s._hw_get_module GRALLOC_HARDWARE_MODULE_ID
      let w1 := { w0 with gralloc := r1.2 }
      let c2 := c1 ++ [Event.hw_get_module s._hw_get_module GRALLOC_HARDWARE_MODULE_ID r1.1 r1.2]
      if r1.1 ≠ 0 then
        -- goto err_alloc
        { calls := c2 ++ [Event.ALOGE "Failed to get gralloc module\n", Event.free wlegl]
          state := (s.store wlegl w1).release wlegl
          ret := Outcome.returned 0 }
      else
        let r2 := e.gralloc_open w1.gralloc
        let w2 := { w1 with alloc := r2.2 }
        let c3 := c2 ++ [Event.gralloc_open w1.gralloc r2.1 r2.2]
        if r2.1 ≠ 0 then
          -- goto err_alloc
          { calls := c3 ++ [Event.ALOGE "Failed to open gralloc: %d\n", Event.free wlegl]
            state := (s.store wlegl w2).release wlegl
            ret := Outcome.returned 0 }
        else
          let display := e.wlb_compositor_get_display compositor
          let g := e.wl_global_create display Symbol.android_wlegl_interface 1 wlegl
            Symbol.wlegl_bind
          let w3 := { w2 with global := g }
          let c4 := c3 ++ [Event.wlb_compositor_get_display compositor display,
            Event.wl_global_create display Symbol.android_wlegl_interface 1 wlegl
              Symbol.wlegl_bind g]
          if g = 0 then
            -- goto err_gralloc, falling through to err_alloc
            { calls := c4 ++ [Event.ALOGE "Failed to create android_wlegl global\n",
                Event.gralloc_close w3.alloc, Event.free wlegl]
              state := (s.store wlegl w3).release wlegl
              ret := Outcome.returned 0 }
          else
            { calls := c4 ++ [Event.wlb_compositor_add_buffer_type compositor
                Symbol.wlegl_buffer_type wlegl]
              state := s.store wlegl w3
              ret := Outcome.returned wlegl }

/-- What the loader block leaves: the calls it issued, the memory, and whether
control falls through to line 79 (`true`) or the block returned `NULL` (`false`). -/
structure Loaded where
  calls : List Event
  state : State
  proceed : Bool

/-- Lines 64-77 of `wlegl_create`: the loader block, entered only while
`_libhardware` is `NULL`. -/
def wlegl_create_load (e : Env) (s : State) : Loaded :=
  if s._libhardware = 0 then
    let lib := e.dlopen "/system/lib/libhardware.so" RTLD_LAZY
    let s1 := { s with _libhardware := lib }
    let c1 := [Event.dlopen "/system/lib/libhardware.so" RTLD_LAZY lib]
    if lib = 0 then
      { calls := c1 ++ [Event.ALOGE "Failed to open libhardware.so"]
        state := s1
        proceed := false }
    else
      let fn := e.dlsym lib "hw_get_module"
      let s2 := { s1 with _hw_get_module := fn }
      let c2 := c1 ++ [Event.ALOGD "loaded /system/lib/libhardware.so",
        Event.dlsym lib "hw_get_module" fn]
      if fn = 0 then
        { calls := c2 ++ [Event.ALOGE "Failed to find hw_get_module"]
          state := s2
          proceed := false }
      else
        { calls := c2, state := s2, proceed := true }
  else
    { calls := [], state := s, proceed := true }

/-- Lines 56-116: `wlegl_create`: the loader block, then, unless that returned
`NULL`, the allocation and set-up of the bridge. -/
def wlegl_create (e : Env) (compositor : Ptr) (s : State) : Step Ptr :=
  let l := wlegl_create_load e s
  if l.proceed then
    wlegl_create_bridge e compositor l.state l.calls
  else
    { calls := l.calls, state := l.state, ret := Outcome.returned 0 }

/-- Lines 118-124: `wlegl_destroy`.  Reading `wlegl->alloc` through a pointer that
holds no `struct wlegl` is undefined behaviour. -/
def wlegl_destroy (wlegl : Ptr) (s : State) : Step Unit :=
  match s.heap wlegl with
  | none => { calls := [], state := s, ret := Outcome.crashed }
  | some w =>
    { calls := [Event.gralloc_close w.alloc, Event.wl_global_destroy w.global,
        Event.free wlegl]
      state := s.release wlegl
      ret := Outcome.returned () }

/-- One `wlegl_create` call of a sequence: what the collaborators answer during it
and the compositor it is given. -/
structure Call where
  env : Env
  compositor : Ptr

/-- A sequence of `wlegl_create` calls made one after the other in one process,
each starting from the memory the previous one left.  The sequence ends at a call
that does not return. -/
def wlegl_create_seq : List Call → State → List (Step Ptr)
  | [], _ => []
  | c :: cs, s =>
    let r := wlegl_create c.env c.compositor s
    match r.ret with
    | Outcome.returned _ => r :: wlegl_create_seq cs r.state
    | Outcome.crashed => [r]

/-- The life of one bridge: `wlegl_create`, followed by `wlegl_destroy` exactly when
a bridge was returned. -/
def wlegl_lifecycle (e : Env) (compositor : Ptr) (s : State) : Step Unit :=
  let r := wlegl_create e compositor s
  match r.ret with
  | Outcome.crashed => { calls := r.calls, state := r.state, ret := Outcome.crashed }
  | Outcome.returned p =>
    if p = 0 then
      { calls := r.calls, state := r.state, ret := Outcome.returned () }
    else
      let d := wlegl_destroy p r.state
      { calls := r.calls ++ d.calls, state := d.state, ret := d.ret }

/-! ## Classifying calls -/

def Event.is_dlopen : Event → Bool
  | Event.dlopen _ _ _ => true
  | _ => false

def Event.is_dlsym : Event → Bool
  | Event.dlsym _ _ _ => true
  | _ => false

def Event.is_malloc : Event → Bool
  | Event.malloc _ => true
  | _ => false

def Event.is_free : Event → Bool
  | Event.free _ => true
  | _ => false

def Event.is_hw_get_module : Event → Bool
  | Event.hw_get_module _ _ _ _ => true
  | _ => false

def Event.is_gralloc_open : Event → Bool
  | Event.gralloc_open _ _ _ => true
  | _ => false

def Event.is_gralloc_close : Event → Bool
  | Event.gralloc_close _ => true
  | _ => false

def Event.is_wl_global_create : Event → Bool
  | Event.wl_global_create _ _ _ _ _ _ => true
  | _ => false

def Event.is_wl_global_destroy : Event → Bool
  | Event.wl_global_destroy _ => true
  | _ => false

def Event.is_add_buffer_type : Event → Bool
  | Event.wlb_compositor_add_buffer_type _ _ _ => true
  | _ => false

def Event.is_post_no_memory : Event → Bool
  | Event.wl_client_post_no_memory _ => true
  | _ => false

def Event.is_set_implementation : Event → Bool
  | Event.wl_resource_set_implementation _ _ _ _ => true
  | _ => false

def Event.is_buffer_create : Event → Bool
  | Event.wlegl_buffer_create _ _ _ _ _ _ _ _ _ => true
  | _ => false

/-- A module lookup that reported a nonzero status. -/
def Event.hw_get_module_failed : Event → Bool
  | Event.hw_get_module _ _ err _ => err != 0
  | _ => false

/-- An allocator open that reported a nonzero status. -/
def Event.gralloc_open_failed : Event → Bool
  | Event.gralloc_open _ err _ => err != 0
  | _ => false

/-- An allocator open that reported status zero. -/
def Event.gralloc_open_ok : Event → Bool
  | Event.gralloc_open _ err _ => err == 0
  | _ => false

/-- A global creation that returned `NULL`. -/
def Event.wl_global_create_failed : Event → Bool
  | Event.wl_global_create _ _ _ _ _ ret => ret == 0
  | _ => false

/-- A global creation that returned a global. -/
def Event.wl_global_create_ok : Event → Bool
  | Event.wl_global_create _ _ _ _ _ ret => ret != 0
  | _ => false

/-- A collaborator call that reported failure: a `NULL` result of `dlopen`, `dlsym`,
`malloc` or `wl_global_create`, a nonzero status of `hw_get_module` or
`gralloc_open`. -/
def Event.failed : Event → Bool
  | Event.dlopen _ _ ret => ret == 0
  | Event.dlsym _ _ ret => ret == 0
  | Event.malloc ret => ret == 0
  | Event.hw_get_module _ _ err _ => err != 0
  | Event.gralloc_open _ err _ => err != 0
  | Event.wl_global_create _ _ _ _ _ ret => ret == 0
  | _ => false

/-! ## Sample collaborators -/

/-- Collaborators that all succeed: the library is at address 7, the entry point at
8, the bridge is allocated at 9, the module is 10, the session 11, the display 12
and the global 13. -/
def env_ok : Env :=
  { dlopen := fun _ _ => 7
    dlsym := fun _ _ => 8
    malloc := 9
    uninit := { gralloc := 0, alloc := 0, global := 0 }
    hw_get_module := fun _ _ => (0, 10)
    gralloc_open := fun _ => (0, 11)
    wlb_compositor_get_display := fun _ => 12
    wl_global_create := fun _ _ _ _ _ => 13
    wl_resource_create := fun _ _ _ _ => 14 }

/-- As `env_ok`, for a second bridge in the same process: the bridge is allocated
at 19, its session is 21, its global 23, and a resource bound to it is at 24. -/
def env_second : Env :=
  { env_ok with
    malloc := 19
    gralloc_open := fun _ => (0, 21)
    wl_global_create := fun _ _ _ _ _ => 23
    wl_resource_create := fun _ _ _ _ => 24 }

/-- The memory after two successful `wlegl_create` calls: bridges at 9 and 19. -/
def two_bridges : State :=
  (wlegl_create env_second 1 (wlegl_create env_ok 1 State.fresh).state).state

/-- As `env_ok`, but the library cannot be loaded. -/
def env_no_library : Env := { env_ok with dlopen := fun _ _ => 0 }

/-- As `env_ok`, but the library has no `hw_get_module` entry point. -/
def env_no_symbol : Env := { env_ok with dlsym := fun _ _ => 0 }

/-- As `env_ok`, but the module lookup reports `-ENOENT`. -/
def env_no_module : Env := { env_ok with hw_get_module := fun _ _ => (-2, 0) }

/-- As `env_ok`, but the registry global cannot be created. -/
def env_no_global : Env := { env_ok with wl_global_create := fun _ _ _ _ _ => 0 }

/-- A call the loader block can issue: `dlopen`, `dlsym` or a log line. -/
def Event.is_loader : Event → Bool
  | Event.dlopen _ _ _ => true
  | Event.dlsym _ _ _ => true
  | Event.ALOGE _ => true
  | Event.ALOGD _ => true
  | _ => false

/-! ## The paths through `wlegl_create` -/

/-- The loader block issues only `dlopen`, `dlsym` and log calls and leaves the
heap alone. -/
theorem wlegl_create_load_calls (e : Env) (s : State) :
    (∀ ev ∈ (wlegl_create_load e s).calls, ev.is_loader = true) ∧
    (wlegl_create_load e s).state.heap = s.heap := by
  by_cases h0 : s._libhardware = 0 <;>
  by_cases h1 : e.dlopen "/system/lib/libhardware.so" RTLD_LAZY = 0 <;>
  by_cases h2 : e.dlsym (e.dlopen "/system/lib/libhardware.so" RTLD_LAZY) "hw_get_module" = 0 <;>
  simp [wlegl_create_load, h0, h1, h2, Event.is_loader]

/-- With `_libhardware` already set the loader block does nothing. -/
theorem wlegl_create_load_cached (e : Env) (s : State) (h : s._libhardware ≠ 0) :
    wlegl_create_load e s = { calls := [], state := s, proceed := true } := by
  simp [wlegl_create_load, h]

/-- When the loader block falls through, `_libhardware` is set; and if the block
was entered, it resolved a non-`NULL` entry point. -/
theorem wlegl_create_load_proceed (e : Env) (s : State)
    (h : (wlegl_create_load e s).proceed = true) :
    (wlegl_create_load e s).state._libhardware ≠ 0 ∧
    (s._libhardware = 0 → (wlegl_create_load e s).state._hw_get_module ≠ 0) := by
  by_cases h0 : s._libhardware = 0 <;>
  by_cases h1 : e.dlopen "/system/lib/libhardware.so" RTLD_LAZY = 0 <;>
  by_cases h2 : e.dlsym (e.dlopen "/system/lib/libhardware.so" RTLD_LAZY) "hw_get_module" = 0 <;>
  simp_all [wlegl_create_load]

/-- When the loader block returns `NULL`, it was entered with `_libhardware` `NULL`
and either `dlopen` or `dlsym` returned `NULL`. -/
theorem wlegl_create_load_stop (e : Env) (s : State)
    (h : (wlegl_create_load e s).proceed = false) :
    s._libhardware = 0 ∧
    (∀ ev ∈ (wlegl_create_load e s).calls, ev.is_malloc = false) ∧
    (∃ ev ∈ (wlegl_create_load e s).calls, ev.failed = true) := by
  by_cases h0 : s._libhardware = 0 <;>
  by_cases h1 : e.dlopen "/system/lib/libhardware.so" RTLD_LAZY = 0 <;>
  by_cases h2 : e.dlsym (e.dlopen "/system/lib/libhardware.so" RTLD_LAZY) "hw_get_module" = 0 <;>
  simp_all [wlegl_create_load, Event.is_malloc, Event.failed]

/-- The six ways through lines 79-115. -/
theorem wlegl_create_bridge_paths (e : Env) (compositor : Ptr) (s : State)
    (pre : List Event) :
    (e.malloc = 0 ∧
      (wlegl_create_bridge e compositor s pre).calls =
        pre ++ [Event.malloc 0, Event.ALOGE "Failed to allocate wlegl"] ∧
      (wlegl_create_bridge e compositor s pre).ret = Outcome.returned 0 ∧
      (wlegl_create_bridge e compositor s pre).state = s) ∨
    (e.malloc ≠ 0 ∧ s._hw_get_module = 0 ∧
      (wlegl_create_bridge e compositor s pre).calls = pre ++ [Event.malloc e.malloc] ∧
      (wlegl_create_bridge e compositor s pre).ret = Outcome.crashed ∧
      (wlegl_create_bridge e compositor s pre).state = s.store e.malloc e.uninit) ∨
    (e.malloc ≠ 0 ∧ s._hw_get_module ≠ 0 ∧
      (e.hw_get_module s._hw_get_module GRALLOC_HARDWARE_MODULE_ID).1 ≠ 0 ∧
      (wlegl_create_bridge e compositor s pre).calls =
        pre ++ [Event.malloc e.malloc,
          Event.hw_get_module s._hw_get_module GRALLOC_HARDWARE_MODULE_ID
            (e.hw_get_module s._hw_get_module GRALLOC_HARDWARE_MODULE_ID).1
            (e.hw_get_module s._hw_get_module GRALLOC_HARDWARE_MODULE_ID).2,
          Event.ALOGE "Failed to get gralloc module\n", Event.free e.malloc] ∧
      (wlegl_create_bridge e compositor s pre).ret = Outcome.returned 0 ∧
      (wlegl_create_bridge e compositor s pre).state._libhardware = s._libhardware ∧
      (wlegl_create_bridge e compositor s pre).state._hw_get_module = s._hw_get_module ∧
      (wlegl_create_bridge e compositor s pre).state.heap e.malloc = none) ∨
    (e.malloc ≠ 0 ∧ s._hw_get_module ≠ 0 ∧
      (e.hw_get_module s._hw_get_module GRALLOC_HARDWARE_MODULE_ID).1 = 0 ∧
      (e.gralloc_open (e.hw_get_module s._hw_get_module GRALLOC_HARDWARE_MODULE_ID).2).1 ≠ 0 ∧
      (wlegl_create_bridge e compositor s pre).calls =
        pre ++ [Event.malloc e.malloc,
          Event.hw_get_module s._hw_get_module GRALLOC_HARDWARE_MODULE_ID 0
            (e.hw_get_module s._hw_get_module GRALLOC_HARDWARE_MODULE_ID).2,
          Event.gralloc_open (e.hw_get_module s._hw_get_module GRALLOC_HARDWARE_MODULE_ID).2
            (e.gralloc_open (e.hw_get_module s._hw_get_module GRALLOC_HARDWARE_MODULE_ID).2).1
            (e.gralloc_open (e.hw_get_module s._hw_get_module GRALLOC_HARDWARE_MODULE_ID).2).2,
          Event.ALOGE "Failed to open gralloc: %d\n", Event.free e.malloc] ∧
      (wlegl_create_bridge e compositor s pre).ret = Outcome.returned 0 ∧
      (wlegl_create_bridge e compositor s pre).state._libhardware = s._libhardware ∧
      (wlegl_create_bridge e compositor s pre).state._hw_get_module = s._hw_get_module ∧
      (wlegl_create_bridge e compositor s pre).state.heap e.malloc = none) ∨
    (e.malloc ≠ 0 ∧ s._hw_get_module ≠ 0 ∧
      (e.hw_get_module s._hw_get_module GRALLOC_HARDWARE_MODULE_ID).1 = 0 ∧
      (e.gralloc_open (e.hw_get_module s._hw_get_module GRALLOC_HARDWARE_MODULE_ID).2).1 = 0 ∧
      e.wl_global_create (e.wlb_compositor_get_display compositor)
        Symbol.android_wlegl_interface 1 e.malloc Symbol.wlegl_bind = 0 ∧
      (wlegl_create_bridge e compositor s pre).calls =
        pre ++ [Event.malloc e.malloc,
          Event.hw_get_module s._hw_get_module GRALLOC_HARDWARE_MODULE_ID 0
            (e.hw_get_module s._hw_get_module GRALLOC_HARDWARE_MODULE_ID).2,
          Event.gralloc_open (e.hw_get_module s._hw_get_module GRALLOC_HARDWARE_MODULE_ID).2
            0 (e.gralloc_open (e.hw_get_module s._hw_get_module GRALLOC_HARDWARE_MODULE_ID).2).2,
          Event.wlb_compositor_get_display compositor
            (e.wlb_compositor_get_display compositor),
          Event.wl_global_create (e.wlb_compositor_get_display compositor)
            Symbol.android_wlegl_interface 1 e.malloc Symbol.wlegl_bind 0,
          Event.ALOGE "Failed to create android_wlegl global\n",
          Event.gralloc_close
            (e.gralloc_open (e.hw_get_module s._hw_get_module GRALLOC_HARDWARE_MODULE_ID).2).2,
          Event.free e.malloc] ∧
      (wlegl_create_bridge e compositor s pre).ret = Outcome.returned 0 ∧
      (wlegl_create_bridge e compositor s pre).state._libhardware = s._libhardware ∧
      (wlegl_create_bridge e compositor s pre).state._hw_get_module = s._hw_get_module ∧
      (wlegl_create_bridge e compositor s pre).state.heap e.malloc = none) ∨
    (e.malloc ≠ 0 ∧ s._hw_get_module ≠ 0 ∧
      (e.hw_get_module s._hw_get_module GRALLOC_HARDWARE_MODULE_ID).1 = 0 ∧
      (e.gralloc_open (e.hw_get_module s._hw_get_module GRALLOC_HARDWARE_MODULE_ID).2).1 = 0 ∧
      e.wl_global_create (e.wlb_compositor_get_display compositor)
        Symbol.android_wlegl_interface 1 e.malloc Symbol.wlegl_bind ≠ 0 ∧
      (wlegl_create_bridge e compositor s pre).calls =
        pre ++ [Event.malloc e.malloc,
          Event.hw_get_module s._hw_get_module GRALLOC_HARDWARE_MODULE_ID 0
            (e.hw_get_module s._hw_get_module GRALLOC_HARDWARE_MODULE_ID).2,
          Event.gralloc_open (e.hw_get_module s._hw_get_module GRALLOC_HARDWARE_MODULE_ID).2
            0 (e.gralloc_open (e.hw_get_module s._hw_get_module GRALLOC_HARDWARE_MODULE_ID).2).2,
          Event.wlb_compositor_get_display compositor
            (e.wlb_compositor_get_display compositor),
          Event.wl_global_create (e.wlb_compositor_get_display compositor)
            Symbol.android_wlegl_interface 1 e.malloc Symbol.wlegl_bind
            (e.wl_global_create (e.wlb_compositor_get_display compositor)
              Symbol.android_wlegl_interface 1 e.malloc Symbol.wlegl_bind),
          Event.wlb_compositor_add_buffer_type compositor Symbol.wlegl_buffer_type
            e.malloc] ∧
      (wlegl_create_bridge e compositor s pre).ret = Outcome.returned e.malloc ∧
      (wlegl_create_bridge e compositor s pre).state._libhardware = s._libhardware ∧
      (wlegl_create_bridge e compositor s pre).state._hw_get_module = s._hw_get_module ∧
      (wlegl_create_bridge e compositor s pre).state.heap e.malloc = some
        { gralloc := (e.hw_get_module s._hw_get_module GRALLOC_HARDWARE_MODULE_ID).2
          alloc :=
            (e.gralloc_open (e.hw_get_module s._hw_get_module GRALLOC_HARDWARE_MODULE_ID).2).2
          global := e.wl_global_create (e.wlb_compositor_get_display compositor)
            Symbol.android_wlegl_interface 1 e.malloc Symbol.wlegl_bind }) := by
  by_cases h0 : e.malloc = 0
  · left; simp [wlegl_create_bridge, h0]
  right
  by_cases h1 : s._hw_get_module = 0
  · left; simp [wlegl_create_bridge, h0, h1]
  right
  by_cases h2 : (e.hw_get_module s._hw_get_module GRALLOC_HARDWARE_MODULE_ID).1 = 0
  swap
  · left; simp [wlegl_create_bridge, h0, h1, h2, State.store, State.release]
  right
  by_cases h3 :
      (e.gralloc_open (e.hw_get_module s._hw_get_module GRALLOC_HARDWARE_MODULE_ID).2).1 = 0
  swap
  · left; simp [wlegl_create_bridge, h0, h1, h2, h3, State.store, State.release]
  right
  by_cases h4 : e.wl_global_create (e.wlb_compositor_get_display compositor)
      Symbol.android_wlegl_interface 1 e.malloc Symbol.wlegl_bind = 0
  · left; simp [wlegl_create_bridge, h0, h1, h2, h3, h4, State.store, State.release]
  · right; simp [wlegl_create_bridge, h0, h1, h2, h3, h4, State.store]

/-- When the loader block falls through, `wlegl_create` is lines 79-115 run after it. -/
theorem wlegl_create_of_proceed (e : Env) (compositor : Ptr) (s : State)
    (h : (wlegl_create_load e s).proceed = true) :
    wlegl_create e compositor s =
      wlegl_create_bridge e compositor (wlegl_create_load e s).state
        (wlegl_create_load e s).calls := by
  simp [wlegl_create, h]

/-- When the loader block returns `NULL`, so does `wlegl_create`. -/
theorem wlegl_create_of_stop (e : Env) (compositor : Ptr) (s : State)
    (h : (wlegl_create_load e s).proceed = false) :
    wlegl_create e compositor s =
      { calls := (wlegl_create_load e s).calls, state := (wlegl_create_load e s).state,
        ret := Outcome.returned 0 } := by
  simp [wlegl_create, h]

/-- A loader call is none of the calls made after the loader block. -/
theorem Event.not_of_is_loader (ev : Event) (h : ev.is_loader = true) :
    ev.is_malloc = false ∧ ev.is_free = false ∧ ev.is_hw_get_module = false ∧
    ev.is_gralloc_open = false ∧ ev.is_gralloc_close = false ∧
    ev.is_wl_global_create = false ∧ ev.is_wl_global_destroy = false ∧
    ev.is_add_buffer_type = false ∧ ev.hw_get_module_failed = false ∧
    ev.gralloc_open_failed = false ∧ ev.gralloc_open_ok = false ∧
    ev.wl_global_create_failed = false ∧ ev.wl_global_create_ok = false := by
  cases ev <;> simp_all [Event.is_loader, Event.is_malloc, Event.is_free,
    Event.is_hw_get_module, Event.is_gralloc_open, Event.is_gralloc_close,
    Event.is_wl_global_create, Event.is_wl_global_destroy, Event.is_add_buffer_type,
    Event.hw_get_module_failed, Event.gralloc_open_failed, Event.gralloc_open_ok,
    Event.wl_global_create_failed, Event.wl_global_create_ok]

/-- No call of the loader block satisfies a predicate that is false on loader calls. -/
theorem wlegl_create_load_countP (e : Env) (s : State) (p : Event → Bool)
    (hp : ∀ ev, ev.is_loader = true → p ev = false) :
    (wlegl_create_load e s).calls.countP p = 0 :=
  List.countP_eq_zero.2 (fun ev hev => by
    simp [hp ev ((wlegl_create_load_calls e s).1 ev hev)])

/-- No call of the loader block satisfies a predicate that is false on loader calls. -/
theorem wlegl_create_load_any (e : Env) (s : State) (p : Event → Bool)
    (hp : ∀ ev, ev.is_loader = true → p ev = false) :
    (wlegl_create_load e s).calls.any p = false := by
  rw [List.any_eq_false]
  intro ev hev
  simp [hp ev ((wlegl_create_load_calls e s).1 ev hev)]

/-- A `wlegl_create` call that reaches the module lookup leaves both statics set. -/
theorem wlegl_create_loaded_of_lookup (e : Env) (compositor : Ptr) (s : State)
    (h : (wlegl_create e compositor s).calls.any Event.is_hw_get_module = true) :
    (wlegl_create e compositor s).state._libhardware ≠ 0 ∧
    (wlegl_create e compositor s).state._hw_get_module ≠ 0 := by
  have a1 := wlegl_create_load_any e s Event.is_hw_get_module
    (fun ev h => (ev.not_of_is_loader h).2.2.1)
  by_cases hp : (wlegl_create_load e s).proceed = true
  swap
  · simp only [Bool.not_eq_true] at hp
    rw [wlegl_create_of_stop e compositor s hp] at h
    simp [a1] at h
  have hlib := (wlegl_create_load_proceed e s hp).1
  rw [wlegl_create_of_proceed e compositor s hp] at h ⊢
  rcases wlegl_create_bridge_paths e compositor (wlegl_create_load e s).state
    (wlegl_create_load e s).calls with
    ⟨_, hc, _, _⟩ | ⟨_, _, hc, _, _⟩ | ⟨_, h1, _, _, _, hs1, hs2, _⟩ |
    ⟨_, h1, _, _, _, _, hs1, hs2, _⟩ | ⟨_, h1, _, _, _, _, _, hs1, hs2, _⟩ |
    ⟨_, h1, _, _, _, _, _, hs1, hs2, _⟩
  · rw [hc] at h
    simp [a1, Event.is_hw_get_module] at h
  · rw [hc] at h
    simp [a1, Event.is_hw_get_module] at h
  · rw [hs1, hs2]; exact ⟨hlib, h1⟩
  · rw [hs1, hs2]; exact ⟨hlib, h1⟩
  · rw [hs1, hs2]; exact ⟨hlib, h1⟩
  · rw [hs1, hs2]; exact ⟨hlib, h1⟩

/-- With both statics set, `wlegl_create` returns, keeps the statics, calls neither
`dlopen` nor `dlsym`, and calls `hw_get_module` once unless `malloc` fails. -/
theorem wlegl_create_cached (e : Env) (compositor : Ptr) (s : State)
    (hlib : s._libhardware ≠ 0) (hfn : s._hw_get_module ≠ 0) :
    (wlegl_create e compositor s).state._libhardware ≠ 0 ∧
    (wlegl_create e compositor s).state._hw_get_module ≠ 0 ∧
    (wlegl_create e compositor s).ret ≠ Outcome.crashed ∧
    (wlegl_create e compositor s).calls.countP Event.is_dlopen = 0 ∧
    (wlegl_create e compositor s).calls.countP Event.is_dlsym = 0 ∧
    (wlegl_create e compositor s).calls.countP Event.is_hw_get_module =
      if e.malloc = 0 then 0 else 1 := by
  have hw : wlegl_create e compositor s = wlegl_create_bridge e compositor s [] := by
    simp [wlegl_create, wlegl_create_load_cached e s hlib]
  rw [hw]
  rcases wlegl_create_bridge_paths e compositor s [] with
    ⟨h0, hc, hr, hs⟩ | ⟨_, h1, _, _, _⟩ | ⟨h0, _, _, hc, hr, hs1, hs2, _⟩ |
    ⟨h0, _, _, _, hc, hr, hs1, hs2, _⟩ | ⟨h0, _, _, _, _, hc, hr, hs1, hs2, _⟩ |
    ⟨h0, _, _, _, _, hc, hr, hs1, hs2, _⟩
  · rw [hc, hr, hs]
    simp [hlib, hfn, h0, Event.is_dlopen, Event.is_dlsym, Event.is_hw_get_module,
      List.countP_cons]
  · exact absurd h1 hfn
  · rw [hc, hr, hs1, hs2]
    simp [hlib, hfn, h0, Event.is_dlopen, Event.is_dlsym, Event.is_hw_get_module,
      List.countP_cons]
  · rw [hc, hr, hs1, hs2]
    simp [hlib, hfn, h0, Event.is_dlopen, Event.is_dlsym, Event.is_hw_get_module,
      List.countP_cons]
  · rw [hc, hr, hs1, hs2]
    simp [hlib, hfn, h0, Event.is_dlopen, Event.is_dlsym, Event.is_hw_get_module,
      List.countP_cons]
  · rw [hc, hr, hs1, hs2]
    simp [hlib, hfn, h0, Event.is_dlopen, Event.is_dlsym, Event.is_hw_get_module,
      List.countP_cons]

/-- Starting with both statics set, every call of a sequence is made, and none
calls `dlopen` or `dlsym`; each calls `hw_get_module` once unless its `malloc`
fails. -/
theorem wlegl_create_seq_cached (cs : List Call) (s : State)
    (hlib : s._libhardware ≠ 0) (hfn : s._hw_get_module ≠ 0) (j : Nat) (rj : Step Ptr)
    (hj : (wlegl_create_seq cs s)[j]? = some rj) :
    rj.calls.countP Event.is_dlopen = 0 ∧
    rj.calls.countP Event.is_dlsym = 0 ∧
    ∀ cj, cs[j]? = some cj →
      rj.calls.countP Event.is_hw_get_module = if cj.env.malloc = 0 then 0 else 1 := by
  induction cs generalizing s j with
  | nil => simp [wlegl_create_seq] at hj
  | cons c cs ih =>
    obtain ⟨h1, h2, h3, h4, h5, h6⟩ := wlegl_create_cached c.env c.compositor s hlib hfn
    have hseq : wlegl_create_seq (c :: cs) s =
        wlegl_create c.env c.compositor s ::
          wlegl_create_seq cs (wlegl_create c.env c.compositor s).state := by
      simp only [wlegl_create_seq]
      cases hr : (wlegl_create c.env c.compositor s).ret with
      | returned v => rfl
      | crashed => exact absurd hr h3
    rw [hseq] at hj
    cases j with
    | zero =>
      simp only [List.getElem?_cons_zero, Option.some.injEq] at hj
      subst hj
      refine ⟨h4, h5, ?_⟩
      intro cj hcj
      simp only [List.getElem?_cons_zero, Option.some.injEq] at hcj
      subst hcj
      exact h6
    | succ j =>
      simp only [List.getElem?_cons_succ] at hj
      obtain ⟨g1, g2, g3⟩ := ih _ h1 h2 j hj
      refine ⟨g1, g2, ?_⟩
      intro cj hcj
      simp only [List.getElem?_cons_succ] at hcj
      exact g3 cj hcj

/-- A sequence whose first call returns goes on from the memory that call left. -/
theorem wlegl_create_seq_cons_returned (c : Call) (cs : List Call) (s : State) (v : Ptr)
    (h : (wlegl_create c.env c.compositor s).ret = Outcome.returned v) :
    wlegl_create_seq (c :: cs) s =
      wlegl_create c.env c.compositor s ::
        wlegl_create_seq cs (wlegl_create c.env c.compositor s).state := by
  simp only [wlegl_create_seq, h]

/-- A sequence whose first call does not return ends there. -/
theorem wlegl_create_seq_cons_crashed (c : Call) (cs : List Call) (s : State)
    (h : (wlegl_create c.env c.compositor s).ret = Outcome.crashed) :
    wlegl_create_seq (c :: cs) s = [wlegl_create c.env c.compositor s] := by
  simp only [wlegl_create_seq, h]

/-- The loader block never issues `gralloc_close`. -/
theorem wlegl_create_load_no_close (e : Env) (s : State) (d : Ptr) :
    Event.gralloc_close d ∉ (wlegl_create_load e s).calls := by
  intro h
  have := (wlegl_create_load_calls e s).1 _ h
  simp [Event.is_loader] at this

/-! ## wlegl_create -/

/-- C1: when `wlegl_create` is called with `_libhardware` still `NULL` and `dlopen`
fails, it returns `NULL` and its only collaborator calls are the `dlopen` and the
error log: no `dlsym`, no `malloc`, no `hw_get_module`, no `gralloc_open`, no
`wl_global_create` and no `wlb_compositor_add_buffer_type`. -/
theorem wlegl_create_dlopen_failure (e : Env) (compositor : Ptr) (s : State)
    (hfresh : s._libhardware = 0)
    (hopen : e.dlopen "/system/lib/libhardware.so" RTLD_LAZY = 0) :
    (wlegl_create e compositor s).ret = Outcome.returned 0 ∧
    (wlegl_create e compositor s).calls =
      [Event.dlopen "/system/lib/libhardware.so" RTLD_LAZY 0,
       Event.ALOGE "Failed to open libhardware.so"] ∧
    (∀ ev ∈ (wlegl_create e compositor s).calls,
      ev.is_dlsym = false ∧ ev.is_malloc = false ∧ ev.is_hw_get_module = false ∧
      ev.is_gralloc_open = false ∧ ev.is_wl_global_create = false ∧
      ev.is_add_buffer_type = false) ∧
    (wlegl_create e compositor s).state.heap = s.heap := by
  have hc : (wlegl_create e compositor s).calls =
      [Event.dlopen "/system/lib/libhardware.so" RTLD_LAZY 0,
       Event.ALOGE "Failed to open libhardware.so"] := by
    simp [wlegl_create, wlegl_create_load, hfresh, hopen]
  refine ⟨?_, hc, ?_, ?_⟩
  · simp [wlegl_create, wlegl_create_load, hfresh, hopen]
  · rw [hc]
    intro ev hev
    simp at hev
    rcases hev with rfl | rfl <;> simp [Event.is_dlsym, Event.is_malloc,
      Event.is_hw_get_module, Event.is_gralloc_open, Event.is_wl_global_create,
      Event.is_add_buffer_type]
  · simp [wlegl_create, wlegl_create_load, hfresh, hopen]

/-- C2: when the module lookup (`hw_get_module`) or the allocator open
(`gralloc_open`) made by `wlegl_create` reports a nonzero status, `wlegl_create`
returns `NULL`, makes no `wl_global_create`, no `wlb_compositor_add_buffer_type` and
no `gralloc_close` call, and frees the bridge allocation exactly once; when it is
the module lookup that failed, `gralloc_open` is not called either. -/
theorem wlegl_create_lookup_or_open_failure (e : Env) (compositor : Ptr) (s : State)
    (hfail : (wlegl_create e compositor s).calls.any Event.hw_get_module_failed = true ∨
      (wlegl_create e compositor s).calls.any Event.gralloc_open_failed = true) :
    (wlegl_create e compositor s).ret = Outcome.returned 0 ∧
    (wlegl_create e compositor s).calls.countP Event.is_wl_global_create = 0 ∧
    (wlegl_create e compositor s).calls.countP Event.is_add_buffer_type = 0 ∧
    (wlegl_create e compositor s).calls.countP Event.is_gralloc_close = 0 ∧
    e.malloc ≠ 0 ∧
    (wlegl_create e compositor s).calls.countP Event.is_malloc = 1 ∧
    Event.malloc e.malloc ∈ (wlegl_create e compositor s).calls ∧
    (wlegl_create e compositor s).calls.countP Event.is_free = 1 ∧
    Event.free e.malloc ∈ (wlegl_create e compositor s).calls ∧
    (wlegl_create e compositor s).state.heap e.malloc = none ∧
    ((wlegl_create e compositor s).calls.any Event.hw_get_module_failed = true →
      (wlegl_create e compositor s).calls.countP Event.is_gralloc_open = 0) := by
  have a1 := wlegl_create_load_any e s Event.hw_get_module_failed
    (fun ev h => (ev.not_of_is_loader h).2.2.2.2.2.2.2.2.1)
  have a2 := wlegl_create_load_any e s Event.gralloc_open_failed
    (fun ev h => (ev.not_of_is_loader h).2.2.2.2.2.2.2.2.2.1)
  have k1 := wlegl_create_load_countP e s Event.is_wl_global_create
    (fun ev h => (ev.not_of_is_loader h).2.2.2.2.2.1)
  have k2 := wlegl_create_load_countP e s Event.is_add_buffer_type
    (fun ev h => (ev.not_of_is_loader h).2.2.2.2.2.2.2.1)
  have k3 := wlegl_create_load_countP e s Event.is_gralloc_close
    (fun ev h => (ev.not_of_is_loader h).2.2.2.2.1)
  have k4 := wlegl_create_load_countP e s Event.is_malloc
    (fun ev h => (ev.not_of_is_loader h).1)
  have k5 := wlegl_create_load_countP e s Event.is_free
    (fun ev h => (ev.not_of_is_loader h).2.1)
  have k6 := wlegl_create_load_countP e s Event.is_gralloc_open
    (fun ev h => (ev.not_of_is_loader h).2.2.2.1)
  by_cases hp : (wlegl_create_load e s).proceed = true
  swap
  · simp only [Bool.not_eq_true] at hp
    rw [wlegl_create_of_stop e compositor s hp] at hfail
    simp [a1, a2] at hfail
  rw [wlegl_create_of_proceed e compositor s hp] at hfail ⊢
  rcases wlegl_create_bridge_paths e compositor (wlegl_create_load e s).state
    (wlegl_create_load e s).calls with
    ⟨_, hc, _, _⟩ | ⟨_, _, hc, _, _⟩ | ⟨h0, _, h2, hc, hr, _, _, hh⟩ |
    ⟨h0, _, h2, h3, hc, hr, _, _, hh⟩ | ⟨_, _, h2, h3, _, hc, _, _, _, _⟩ |
    ⟨_, _, h2, h3, _, hc, _, _, _, _⟩
  · rw [hc] at hfail
    simp [a1, a2, Event.hw_get_module_failed, Event.gralloc_open_failed] at hfail
  · rw [hc] at hfail
    simp [a1, a2, Event.hw_get_module_failed, Event.gralloc_open_failed] at hfail
  · rw [hc]
    simp [List.countP_append, List.countP_cons, k1, k2, k3, k4, k5, k6, a1, hr, hh,
      h0, h2, Event.is_wl_global_create, Event.is_add_buffer_type, Event.is_gralloc_close,
      Event.is_malloc, Event.is_free, Event.is_gralloc_open, Event.hw_get_module_failed]
  · rw [hc]
    simp [List.countP_append, List.countP_cons, k1, k2, k3, k4, k5, k6, a1, hr, hh,
      h0, h2, Event.is_wl_global_create, Event.is_add_buffer_type, Event.is_gralloc_close,
      Event.is_malloc, Event.is_free, Event.is_gralloc_open, Event.hw_get_module_failed]
  · rw [hc] at hfail
    simp [a1, a2, Event.hw_get_module_failed, Event.gralloc_open_failed, h2, h3] at hfail
  · rw [hc] at hfail
    simp [a1, a2, Event.hw_get_module_failed, Event.gralloc_open_failed, h2, h3] at hfail

/-- C3: when `wl_global_create` returns `NULL` in a `wlegl_create` call, which
happens only after the one `gralloc_open` of the call reported status zero,
`wlegl_create` closes the session that open produced with its one `gralloc_close`
call, after that frees the bridge allocation, registers no buffer type, and returns
`NULL`. -/
theorem wlegl_create_global_failure (e : Env) (compositor : Ptr) (s : State)
    (hglobal : (wlegl_create e compositor s).calls.any Event.wl_global_create_failed = true) :
    (wlegl_create e compositor s).ret = Outcome.returned 0 ∧
    (wlegl_create e compositor s).calls.countP Event.is_gralloc_open = 1 ∧
    (wlegl_create e compositor s).calls.countP Event.is_gralloc_close = 1 ∧
    (wlegl_create e compositor s).calls.countP Event.is_free = 1 ∧
    (wlegl_create e compositor s).calls.countP Event.is_add_buffer_type = 0 ∧
    (wlegl_create e compositor s).state.heap e.malloc = none ∧
    ∃ pre module session,
      (wlegl_create e compositor s).calls =
        pre ++ [Event.gralloc_open module 0 session,
          Event.wlb_compositor_get_display compositor
            (e.wlb_compositor_get_display compositor),
          Event.wl_global_create (e.wlb_compositor_get_display compositor)
            Symbol.android_wlegl_interface 1 e.malloc Symbol.wlegl_bind 0,
          Event.ALOGE "Failed to create android_wlegl global\n",
          Event.gralloc_close session,
          Event.free e.malloc] := by
  have a1 := wlegl_create_load_any e s Event.wl_global_create_failed
    (fun ev h => (ev.not_of_is_loader h).2.2.2.2.2.2.2.2.2.2.2.1)
  have k3 := wlegl_create_load_countP e s Event.is_gralloc_close
    (fun ev h => (ev.not_of_is_loader h).2.2.2.2.1)
  have k5 := wlegl_create_load_countP e s Event.is_free
    (fun ev h => (ev.not_of_is_loader h).2.1)
  have k6 := wlegl_create_load_countP e s Event.is_gralloc_open
    (fun ev h => (ev.not_of_is_loader h).2.2.2.1)
  have k2 := wlegl_create_load_countP e s Event.is_add_buffer_type
    (fun ev h => (ev.not_of_is_loader h).2.2.2.2.2.2.2.1)
  by_cases hp : (wlegl_create_load e s).proceed = true
  swap
  · simp only [Bool.not_eq_true] at hp
    rw [wlegl_create_of_stop e compositor s hp] at hglobal
    simp [a1] at hglobal
  rw [wlegl_create_of_proceed e compositor s hp] at hglobal ⊢
  rcases wlegl_create_bridge_paths e compositor (wlegl_create_load e s).state
    (wlegl_create_load e s).calls with
    ⟨_, hc, _, _⟩ | ⟨_, _, hc, _, _⟩ | ⟨_, _, _, hc, _, _, _, _⟩ |
    ⟨_, _, _, _, hc, _, _, _, _⟩ | ⟨_, _, _, _, _, hc, hr, _, _, hh⟩ |
    ⟨_, _, _, _, h4, hc, _, _, _, _⟩
  · rw [hc] at hglobal
    simp [a1, Event.wl_global_create_failed] at hglobal
  · rw [hc] at hglobal
    simp [a1, Event.wl_global_create_failed] at hglobal
  · rw [hc] at hglobal
    simp [a1, Event.wl_global_create_failed] at hglobal
  · rw [hc] at hglobal
    simp [a1, Event.wl_global_create_failed] at hglobal
  · refine ⟨hr, ?_, ?_, ?_, ?_, hh, ?_⟩
    · rw [hc]
      simp [List.countP_append, List.countP_cons, k6, Event.is_gralloc_open]
    · rw [hc]
      simp [List.countP_append, List.countP_cons, k3, Event.is_gralloc_close]
    · rw [hc]
      simp [List.countP_append, List.countP_cons, k5, Event.is_free]
    · rw [hc]
      simp [List.countP_append, List.countP_cons, k2, Event.is_add_buffer_type]
    · refine ⟨(wlegl_create_load e s).calls ++ [Event.malloc e.malloc,
        Event.hw_get_module (wlegl_create_load e s).state._hw_get_module
          GRALLOC_HARDWARE_MODULE_ID 0
          (e.hw_get_module (wlegl_create_load e s).state._hw_get_module
            GRALLOC_HARDWARE_MODULE_ID).2],
        (e.hw_get_module (wlegl_create_load e s).state._hw_get_module
          GRALLOC_HARDWARE_MODULE_ID).2,
        (e.gralloc_open (e.hw_get_module (wlegl_create_load e s).state._hw_get_module
          GRALLOC_HARDWARE_MODULE_ID).2).2, ?_⟩
      rw [hc]
      simp
  · rw [hc] at hglobal
    simp [a1, Event.wl_global_create_failed, h4] at hglobal

/-- C4: when every collaborator call of a `wlegl_create` call succeeds (and the
entry point is resolved if the library was loaded by an earlier call),
`wlegl_create` returns the non-`NULL` bridge it allocated; its `alloc` field is the
session of the single `gralloc_open` call and its `global` field the global of the
single `wl_global_create` call, which is made at version 1 on the display obtained
from `wlb_compositor_get_display`, with the bridge as data;
`wlb_compositor_add_buffer_type` is called once, last, with the bridge as context;
`gralloc_close` is not called. -/
theorem wlegl_create_success (e : Env) (compositor : Ptr) (s : State)
    (hsym : s._libhardware ≠ 0 → s._hw_get_module ≠ 0)
    (hok : (wlegl_create e compositor s).calls.any Event.failed = false) :
    (wlegl_create e compositor s).ret = Outcome.returned e.malloc ∧
    e.malloc ≠ 0 ∧
    (wlegl_create e compositor s).calls.countP Event.is_gralloc_open = 1 ∧
    (wlegl_create e compositor s).calls.countP Event.is_wl_global_create = 1 ∧
    (wlegl_create e compositor s).calls.countP Event.is_add_buffer_type = 1 ∧
    (wlegl_create e compositor s).calls.countP Event.is_gralloc_close = 0 ∧
    (wlegl_create e compositor s).calls.countP Event.is_free = 0 ∧
    ∃ pre fn module session global,
      global ≠ 0 ∧
      (wlegl_create e compositor s).state.heap e.malloc =
        some { gralloc := module, alloc := session, global := global } ∧
      (wlegl_create e compositor s).calls =
        pre ++ [Event.malloc e.malloc,
          Event.hw_get_module fn GRALLOC_HARDWARE_MODULE_ID 0 module,
          Event.gralloc_open module 0 session,
          Event.wlb_compositor_get_display compositor
            (e.wlb_compositor_get_display compositor),
          Event.wl_global_create (e.wlb_compositor_get_display compositor)
            Symbol.android_wlegl_interface 1 e.malloc Symbol.wlegl_bind global,
          Event.wlb_compositor_add_buffer_type compositor Symbol.wlegl_buffer_type
            e.malloc] := by
  have k1 := wlegl_create_load_countP e s Event.is_wl_global_create
    (fun ev h => (ev.not_of_is_loader h).2.2.2.2.2.1)
  have k2 := wlegl_create_load_countP e s Event.is_add_buffer_type
    (fun ev h => (ev.not_of_is_loader h).2.2.2.2.2.2.2.1)
  have k3 := wlegl_create_load_countP e s Event.is_gralloc_close
    (fun ev h => (ev.not_of_is_loader h).2.2.2.2.1)
  have k5 := wlegl_create_load_countP e s Event.is_free
    (fun ev h => (ev.not_of_is_loader h).2.1)
  have k6 := wlegl_create_load_countP e s Event.is_gralloc_open
    (fun ev h => (ev.not_of_is_loader h).2.2.2.1)
  by_cases hp : (wlegl_create_load e s).proceed = true
  swap
  · simp only [Bool.not_eq_true] at hp
    rw [wlegl_create_of_stop e compositor s hp] at hok
    obtain ⟨_, _, ev, hev, hf⟩ := wlegl_create_load_stop e s hp
    rw [List.any_eq_false] at hok
    exact absurd hf (hok ev hev)
  have hfn : (wlegl_create_load e s).state._hw_get_module ≠ 0 := by
    by_cases hs : s._libhardware = 0
    · exact (wlegl_create_load_proceed e s hp).2 hs
    · rw [wlegl_create_load_cached e s hs]
      exact hsym hs
  rw [wlegl_create_of_proceed e compositor s hp] at hok ⊢
  rcases wlegl_create_bridge_paths e compositor (wlegl_create_load e s).state
    (wlegl_create_load e s).calls with
    ⟨_, hc, _, _⟩ | ⟨_, h1, hc, _, _⟩ | ⟨_, _, h2, hc, _, _, _, _⟩ |
    ⟨_, _, _, h3, hc, _, _, _, _⟩ | ⟨_, _, _, _, _, hc, _, _, _, _⟩ |
    ⟨h0, _, _, _, h4, hc, hr, _, _, hh⟩
  · rw [hc] at hok
    simp [Event.failed] at hok
  · exact absurd h1 hfn
  · rw [hc] at hok
    simp [Event.failed, h2] at hok
  · rw [hc] at hok
    simp [Event.failed, h3] at hok
  · rw [hc] at hok
    simp [Event.failed] at hok
  · refine ⟨hr, h0, ?_, ?_, ?_, ?_, ?_, ?_⟩
    · rw [hc]
      simp [List.countP_append, List.countP_cons, k6, Event.is_gralloc_open]
    · rw [hc]
      simp [List.countP_append, List.countP_cons, k1, Event.is_wl_global_create]
    · rw [hc]
      simp [List.countP_append, List.countP_cons, k2, Event.is_add_buffer_type]
    · rw [hc]
      simp [List.countP_append, List.countP_cons, k3, Event.is_gralloc_close]
    · rw [hc]
      simp [List.countP_append, List.countP_cons, k5, Event.is_free]
    · exact ⟨_, _, _, _, _, h4, hh, hc⟩

/-! ## wlegl_destroy -/

/-- C5: for a bridge that `wlegl_create` returned, `wlegl_destroy` makes exactly
three calls: `gralloc_close` on the session stored in the bridge, which is the one
the `gralloc_open` of that `wlegl_create` produced, `wl_global_destroy` on the
global stored in the bridge, which is the one its `wl_global_create` returned, and
`free` on the bridge.  It returns, leaves `_libhardware` and `_hw_get_module` as
they were, and touches no other heap cell. -/
theorem wlegl_destroy_after_create (e : Env) (compositor : Ptr) (s : State) (p : Ptr)
    (hret : (wlegl_create e compositor s).ret = Outcome.returned p) (hp : p ≠ 0) :
    ∃ module session global display,
      (wlegl_create e compositor s).state.heap p =
        some { gralloc := module, alloc := session, global := global } ∧
      Event.gralloc_open module 0 session ∈ (wlegl_create e compositor s).calls ∧
      Event.wl_global_create display Symbol.android_wlegl_interface 1 p Symbol.wlegl_bind
        global ∈ (wlegl_create e compositor s).calls ∧
      (wlegl_destroy p (wlegl_create e compositor s).state).calls =
        [Event.gralloc_close session, Event.wl_global_destroy global, Event.free p] ∧
      (wlegl_destroy p (wlegl_create e compositor s).state).ret = Outcome.returned () ∧
      (wlegl_destroy p (wlegl_create e compositor s).state).state._libhardware =
        (wlegl_create e compositor s).state._libhardware ∧
      (wlegl_destroy p (wlegl_create e compositor s).state).state._hw_get_module =
        (wlegl_create e compositor s).state._hw_get_module ∧
      (wlegl_destroy p (wlegl_create e compositor s).state).state.heap p = none ∧
      ∀ q, q ≠ p →
        (wlegl_destroy p (wlegl_create e compositor s).state).state.heap q =
          (wlegl_create e compositor s).state.heap q := by
  by_cases hl : (wlegl_create_load e s).proceed = true
  swap
  · simp only [Bool.not_eq_true] at hl
    rw [wlegl_create_of_stop e compositor s hl] at hret
    simp only [Outcome.returned.injEq] at hret
    exact absurd hret.symm hp
  rw [wlegl_create_of_proceed e compositor s hl] at hret ⊢
  rcases wlegl_create_bridge_paths e compositor (wlegl_create_load e s).state
    (wlegl_create_load e s).calls with
    ⟨_, _, hr, _⟩ | ⟨_, _, _, hr, _⟩ | ⟨_, _, _, _, hr, _, _, _⟩ |
    ⟨_, _, _, _, _, hr, _, _, _⟩ | ⟨_, _, _, _, _, _, hr, _, _, _⟩ |
    ⟨_, _, _, _, _, hc, hr, _, _, hh⟩
  · rw [hr] at hret
    simp only [Outcome.returned.injEq] at hret
    exact absurd hret.symm hp
  · rw [hr] at hret
    cases hret
  · rw [hr] at hret
    simp only [Outcome.returned.injEq] at hret
    exact absurd hret.symm hp
  · rw [hr] at hret
    simp only [Outcome.returned.injEq] at hret
    exact absurd hret.symm hp
  · rw [hr] at hret
    simp only [Outcome.returned.injEq] at hret
    exact absurd hret.symm hp
  · rw [hr] at hret
    simp only [Outcome.returned.injEq] at hret
    subst hret
    refine ⟨_, _, _, e.wlb_compositor_get_display compositor, hh, ?_, ?_, ?_⟩
    · rw [hc]; simp
    · rw [hc]; simp
    · simp only [wlegl_destroy, hh, State.release]
      refine ⟨trivial, trivial, trivial, trivial, ?_, ?_⟩
      · simp
      · intro q hq
        simp [hq]

/-! ## wlegl_bind and the requests -/

/-- C6: `wlegl_bind` posts the no-memory condition to the client exactly when
`wl_resource_create` returns `NULL`, and then sets no implementation; otherwise it
posts nothing and sets the implementation of the new resource to `wlegl_interface`,
the table of `wlegl_create_handle` and `wlegl_create_buffer`, with the bridge as
user data.  The resource is always asked for with the given id at version 1,
whatever version the client requested, and the memory of the bridge is left as it
was. -/
theorem wlegl_bind_spec (e : Env) (client data : Ptr) (version id : Nat) (s : State) :
    ((wlegl_bind e client data version id s).calls.any Event.is_post_no_memory = true ↔
      e.wl_resource_create client Symbol.android_wlegl_interface 1 id = 0) ∧
    (e.wl_resource_create client Symbol.android_wlegl_interface 1 id = 0 →
      (wlegl_bind e client data version id s).calls =
        [Event.wl_resource_create client Symbol.android_wlegl_interface 1 id 0,
         Event.wl_client_post_no_memory client] ∧
      (wlegl_bind e client data version id s).calls.countP Event.is_set_implementation = 0) ∧
    (e.wl_resource_create client Symbol.android_wlegl_interface 1 id ≠ 0 →
      (wlegl_bind e client data version id s).calls =
        [Event.wl_resource_create client Symbol.android_wlegl_interface 1 id
           (e.wl_resource_create client Symbol.android_wlegl_interface 1 id),
         Event.wl_resource_set_implementation
           (e.wl_resource_create client Symbol.android_wlegl_interface 1 id)
           Symbol.wlegl_interface data 0] ∧
      (wlegl_bind e client data version id s).calls.countP Event.is_post_no_memory = 0) ∧
    (wlegl_bind e client data version id s).state = s ∧
    (wlegl_bind e client data version id s).ret = Outcome.returned () ∧
    request_table Symbol.wlegl_interface =
      some { create_handle := wlegl_create_handle, create_buffer := wlegl_create_buffer } := by
  by_cases h : e.wl_resource_create client Symbol.android_wlegl_interface 1 id = 0
  · simp [wlegl_bind, h, Event.is_post_no_memory, Event.is_set_implementation,
      request_table, wlegl_interface, List.countP_cons]
  · simp [wlegl_bind, h, Event.is_post_no_memory, Event.is_set_implementation,
      request_table, wlegl_interface, List.countP_cons]

/-- C7, as the code has it: for every request delivered to `wlegl_create_buffer`,
whose handle reference the dispatcher has by then resolved to a live resource,
`wlegl_create_buffer` makes exactly one call, to `wlegl_buffer_create`, with the
bridge taken from the user data of the global resource, the same id, width, height,
stride, format and usage, and the user data of the handle resource.  It does not
look at which bridge bound the handle object, reports no error of its own and leaves
the memory of the bridge as it was. -/
theorem wlegl_create_buffer_forwards (client : Ptr)
    (resource : wl_resource) (id : Nat) (width height stride format usage : Int)
    (handle : wl_resource) (s : State) :
    (wlegl_create_buffer client resource id width height stride format usage handle s).calls =
      [Event.wlegl_buffer_create (wl_resource_get_user_data resource) resource id width height
        stride format usage (wl_resource_get_user_data handle)] ∧
    (wlegl_create_buffer client resource id width height stride format usage handle
      s).calls.countP Event.is_buffer_create = 1 ∧
    (wlegl_create_buffer client resource id width height stride format usage handle s).ret =
      Outcome.returned () ∧
    (wlegl_create_buffer client resource id width height stride format usage handle s).state =
      s := by
  refine ⟨rfl, ?_, rfl, rfl⟩
  simp [wlegl_create_buffer, Event.is_buffer_create, List.countP_cons]

/-- C7 fails as stated.  Two `wlegl_create` calls succeed and give the bridges 9
and 19; a client binds both globals, which gives it the resource 14 with bridge 9
and the resource 24 with bridge 19 as user data; through resource 14 it creates the
handle object with id 5, which is thereby bound by bridge 9 and not by bridge 19.
A `create_buffer` request sent through resource 24 that refers to this live handle
object still invokes `wlegl_buffer_create`, for bridge 19, and returns without an
error. -/
theorem wlegl_create_buffer_foreign_handle :
    (wlegl_create_seq [{ env := env_ok, compositor := 1 },
      { env := env_second, compositor := 1 }] State.fresh).map Step.ret =
      [Outcome.returned 9, Outcome.returned 19] ∧
    (two_bridges.heap 9).isSome = true ∧ (two_bridges.heap 19).isSome = true ∧
    (wlegl_bind env_ok 1 9 1 2 two_bridges).calls =
      [Event.wl_resource_create 1 Symbol.android_wlegl_interface 1 2 14,
       Event.wl_resource_set_implementation 14 Symbol.wlegl_interface 9 0] ∧
    (wlegl_bind env_second 1 19 1 3 two_bridges).calls =
      [Event.wl_resource_create 1 Symbol.android_wlegl_interface 1 3 24,
       Event.wl_resource_set_implementation 24 Symbol.wlegl_interface 19 0] ∧
    (wlegl_create_handle 1 { addr := 14, id := 2, user_data := 9 } 5 1 [3, 4]
      two_bridges).calls =
      [Event.wlegl_handle_create { addr := 14, id := 2, user_data := 9 } 5 1 [3, 4]] ∧
    bound_by [Event.wlegl_handle_create { addr := 14, id := 2, user_data := 9 } 5 1 [3, 4]]
      9 { addr := 30, id := 5, user_data := 77 } = true ∧
    bound_by [Event.wlegl_handle_create { addr := 14, id := 2, user_data := 9 } 5 1 [3, 4]]
      19 { addr := 30, id := 5, user_data := 77 } = false ∧
    (wlegl_create_buffer 1 { addr := 24, id := 3, user_data := 19 } 6 640 480 640 1 0
      { addr := 30, id := 5, user_data := 77 } two_bridges).calls =
      [Event.wlegl_buffer_create 19 { addr := 24, id := 3, user_data := 19 } 6 640 480 640
        1 0 77] ∧
    (wlegl_create_buffer 1 { addr := 24, id := 3, user_data := 19 } 6 640 480 640 1 0
      { addr := 30, id := 5, user_data := 77 } two_bridges).ret = Outcome.returned () := by
  decide

/-! ## Sequences of wlegl_create calls -/

/-- C8, as the code has it: in every sequence of `wlegl_create` calls, once a call
has reached the module lookup (so the library is loaded and the entry point
resolved), no later call calls `dlopen` or `dlsym`; but the module lookup is not
cached: each later call calls `hw_get_module` again, once, unless its `malloc`
fails. -/
theorem wlegl_create_seq_no_reload (cs : List Call) (s : State) (i j : Nat)
    (ri rj : Step Ptr) (hij : i < j)
    (hi : (wlegl_create_seq cs s)[i]? = some ri)
    (hj : (wlegl_create_seq cs s)[j]? = some rj)
    (hmod : ri.calls.any Event.is_hw_get_module = true) :
    rj.calls.countP Event.is_dlopen = 0 ∧
    rj.calls.countP Event.is_dlsym = 0 ∧
    ∀ cj, cs[j]? = some cj →
      rj.calls.countP Event.is_hw_get_module = if cj.env.malloc = 0 then 0 else 1 := by
  induction cs generalizing s i j with
  | nil => simp [wlegl_create_seq] at hj
  | cons c cs ih =>
    cases hr : (wlegl_create c.env c.compositor s).ret with
    | crashed =>
      rw [wlegl_create_seq_cons_crashed c cs s hr] at hj
      cases j with
      | zero => omega
      | succ j => simp at hj
    | returned v =>
      rw [wlegl_create_seq_cons_returned c cs s v hr] at hi hj
      cases j with
      | zero => omega
      | succ j =>
        simp only [List.getElem?_cons_succ] at hj
        cases i with
        | zero =>
          simp only [List.getElem?_cons_zero, Option.some.injEq] at hi
          subst hi
          obtain ⟨h1, h2⟩ := wlegl_create_loaded_of_lookup c.env c.compositor s hmod
          obtain ⟨g1, g2, g3⟩ := wlegl_create_seq_cached cs _ h1 h2 j rj hj
          exact ⟨g1, g2, fun cj hcj => g3 cj (by simpa using hcj)⟩
        | succ i =>
          simp only [List.getElem?_cons_succ] at hi
          obtain ⟨g1, g2, g3⟩ := ih _ i j (by omega) hi hj
          exact ⟨g1, g2, fun cj hcj => g3 cj (by simpa using hcj)⟩

/-- C8 fails as stated: of two `wlegl_create` calls whose collaborators all succeed,
the second skips `dlopen` and `dlsym` but calls `hw_get_module` again. -/
theorem wlegl_create_seq_looks_up_again :
    (wlegl_create_seq [{ env := env_ok, compositor := 1 }, { env := env_ok, compositor := 1 }]
      State.fresh).map Step.calls =
      [[Event.dlopen "/system/lib/libhardware.so" 1 7,
        Event.ALOGD "loaded /system/lib/libhardware.so",
        Event.dlsym 7 "hw_get_module" 8,
        Event.malloc 9,
        Event.hw_get_module 8 "gralloc" 0 10,
        Event.gralloc_open 10 0 11,
        Event.wlb_compositor_get_display 1 12,
        Event.wl_global_create 12 Symbol.android_wlegl_interface 1 9 Symbol.wlegl_bind 13,
        Event.wlb_compositor_add_buffer_type 1 Symbol.wlegl_buffer_type 9],
       [Event.malloc 9,
        Event.hw_get_module 8 "gralloc" 0 10,
        Event.gralloc_open 10 0 11,
        Event.wlb_compositor_get_display 1 12,
        Event.wl_global_create 12 Symbol.android_wlegl_interface 1 9 Symbol.wlegl_bind 13,
        Event.wlb_compositor_add_buffer_type 1 Symbol.wlegl_buffer_type 9]] := by
  decide

/-- C9 on the code: where the library loads but has no `hw_get_module`, the first
`wlegl_create` call returns `NULL` and leaves `_libhardware` set with
`_hw_get_module` `NULL`; the second call skips the loader block, allocates the
bridge and calls through the `NULL` entry point. -/
theorem wlegl_create_seq_missing_symbol :
    (wlegl_create_seq [{ env := env_no_symbol, compositor := 1 },
      { env := env_no_symbol, compositor := 1 }] State.fresh).map
      (fun r => (r.calls, r.ret, r.state._libhardware, r.state._hw_get_module)) =
      [([Event.dlopen "/system/lib/libhardware.so" 1 7,
         Event.ALOGD "loaded /system/lib/libhardware.so",
         Event.dlsym 7 "hw_get_module" 0,
         Event.ALOGE "Failed to find hw_get_module"], Outcome.returned 0, 7, 0),
       ([Event.malloc 9], Outcome.crashed, 7, 0)] := by
  decide

/-! ## The life of one bridge -/

/-- C10: whatever the collaborators answer, a `wlegl_create` call made with
`_libhardware` still `NULL`, followed by `wlegl_destroy` exactly when a bridge was
returned, runs to the end; at most one `gralloc_open` succeeds; the number of
`gralloc_close` calls equals the number of successful `gralloc_open` calls, every
`gralloc_close` is on a session that a successful `gralloc_open` produced, and no
session is closed twice; and the number of `wl_global_destroy` calls equals the
number of successful `wl_global_create` calls. -/
theorem wlegl_lifecycle_balanced (e : Env) (compositor : Ptr) (s : State)
    (hfresh : s._libhardware = 0) :
    (wlegl_lifecycle e compositor s).ret = Outcome.returned () ∧
    (wlegl_lifecycle e compositor s).calls.countP Event.gralloc_open_ok ≤ 1 ∧
    (wlegl_lifecycle e compositor s).calls.countP Event.is_gralloc_close =
      (wlegl_lifecycle e compositor s).calls.countP Event.gralloc_open_ok ∧
    (wlegl_lifecycle e compositor s).calls.countP Event.is_wl_global_destroy =
      (wlegl_lifecycle e compositor s).calls.countP Event.wl_global_create_ok ∧
    (∀ session, Event.gralloc_close session ∈ (wlegl_lifecycle e compositor s).calls →
      ∃ module, Event.gralloc_open module 0 session ∈
        (wlegl_lifecycle e compositor s).calls) ∧
    (∀ session, (wlegl_lifecycle e compositor s).calls.count (Event.gralloc_close session)
      ≤ 1) := by
  have k3 := wlegl_create_load_countP e s Event.is_gralloc_close
    (fun ev h => (ev.not_of_is_loader h).2.2.2.2.1)
  have k7 := wlegl_create_load_countP e s Event.gralloc_open_ok
    (fun ev h => (ev.not_of_is_loader h).2.2.2.2.2.2.2.2.2.2.1)
  have k8 := wlegl_create_load_countP e s Event.is_wl_global_destroy
    (fun ev h => (ev.not_of_is_loader h).2.2.2.2.2.2.1)
  have k9 := wlegl_create_load_countP e s Event.wl_global_create_ok
    (fun ev h => (ev.not_of_is_loader h).2.2.2.2.2.2.2.2.2.2.2.2)
  have hnc := wlegl_create_load_no_close e s
  have hcount : ∀ (l : List Event) (session : Ptr), l.countP Event.is_gralloc_close ≤ 1 →
      l.count (Event.gralloc_close session) ≤ 1 := by
    intro l session hle
    refine le_trans ?_ hle
    unfold List.count
    apply List.countP_mono_left
    intro x _ hx
    have : x = Event.gralloc_close session := by simpa using hx
    subst this
    rfl
  have main :
      (wlegl_lifecycle e compositor s).ret = Outcome.returned () ∧
      (wlegl_lifecycle e compositor s).calls.countP Event.gralloc_open_ok ≤ 1 ∧
      (wlegl_lifecycle e compositor s).calls.countP Event.is_gralloc_close =
        (wlegl_lifecycle e compositor s).calls.countP Event.gralloc_open_ok ∧
      (wlegl_lifecycle e compositor s).calls.countP Event.is_wl_global_destroy =
        (wlegl_lifecycle e compositor s).calls.countP Event.wl_global_create_ok ∧
      (∀ session, Event.gralloc_close session ∈ (wlegl_lifecycle e compositor s).calls →
        ∃ module, Event.gralloc_open module 0 session ∈
          (wlegl_lifecycle e compositor s).calls) := by
    by_cases hp : (wlegl_create_load e s).proceed = true
    swap
    · simp only [Bool.not_eq_true] at hp
      simp [wlegl_lifecycle, wlegl_create_of_stop e compositor s hp, k3, k7, k8, k9, hnc]
    have hfn := (wlegl_create_load_proceed e s hp).2 hfresh
    unfold wlegl_lifecycle
    rw [wlegl_create_of_proceed e compositor s hp]
    rcases wlegl_create_bridge_paths e compositor (wlegl_create_load e s).state
      (wlegl_create_load e s).calls with
      ⟨_, hc, hr, _⟩ | ⟨_, h1, _, _, _⟩ | ⟨_, _, h2, hc, hr, _, _, _⟩ |
      ⟨_, _, _, h3, hc, hr, _, _, _⟩ | ⟨_, _, _, _, _, hc, hr, _, _, _⟩ |
      ⟨h0, _, _, _, h4, hc, hr, _, _, hh⟩
    · simp [hr, hc, List.countP_append, List.countP_cons, k3, k7, k8, k9, hnc,
        Event.gralloc_open_ok, Event.is_gralloc_close, Event.is_wl_global_destroy,
        Event.wl_global_create_ok]
    · exact absurd h1 hfn
    · simp [hr, hc, List.countP_append, List.countP_cons, k3, k7, k8, k9, hnc,
        Event.gralloc_open_ok, Event.is_gralloc_close, Event.is_wl_global_destroy,
        Event.wl_global_create_ok]
    · simp [hr, hc, List.countP_append, List.countP_cons, k3, k7, k8, k9, hnc, h3,
        Event.gralloc_open_ok, Event.is_gralloc_close, Event.is_wl_global_destroy,
        Event.wl_global_create_ok]
    · simp [hr, hc, List.countP_append, List.countP_cons, k3, k7, k8, k9, hnc,
        Event.gralloc_open_ok, Event.is_gralloc_close, Event.is_wl_global_destroy,
        Event.wl_global_create_ok]
    · simp [hr, hc, h0, h4, hh, wlegl_destroy, List.countP_append, List.countP_cons, k3, k7,
        k8, k9, hnc, Event.gralloc_open_ok, Event.is_gralloc_close,
        Event.is_wl_global_destroy, Event.wl_global_create_ok]
  obtain ⟨m1, m2, m3, m4, m5⟩ := main
  exact ⟨m1, m2, m3, m4, m5, fun session => hcount _ session (by omega)⟩

/-! ## The theorems at sample collaborators -/

/-- C1 at `env_no_library`, from the fresh state. -/
theorem wlegl_create_dlopen_failure_witness :
    State.fresh._libhardware = 0 ∧
    env_no_library.dlopen "/system/lib/libhardware.so" RTLD_LAZY = 0 ∧
    (wlegl_create env_no_library 1 State.fresh).ret = Outcome.returned 0 ∧
    (wlegl_create env_no_library 1 State.fresh).calls =
      [Event.dlopen "/system/lib/libhardware.so" RTLD_LAZY 0,
       Event.ALOGE "Failed to open libhardware.so"] :=
  ⟨rfl, rfl, (wlegl_create_dlopen_failure env_no_library 1 State.fresh rfl rfl).1,
    (wlegl_create_dlopen_failure env_no_library 1 State.fresh rfl rfl).2.1⟩

/-- C2 at `env_no_module`, from the fresh state: the module lookup fails. -/
theorem wlegl_create_lookup_or_open_failure_witness :
    (wlegl_create env_no_module 1 State.fresh).calls.any Event.hw_get_module_failed = true ∧
    (wlegl_create env_no_module 1 State.fresh).ret = Outcome.returned 0 ∧
    (wlegl_create env_no_module 1 State.fresh).calls.countP Event.is_free = 1 ∧
    (wlegl_create env_no_module 1 State.fresh).calls.countP Event.is_gralloc_close = 0 :=
  ⟨by decide,
    (wlegl_create_lookup_or_open_failure env_no_module 1 State.fresh
      (Or.inl (by decide))).1,
    (wlegl_create_lookup_or_open_failure env_no_module 1 State.fresh
      (Or.inl (by decide))).2.2.2.2.2.2.2.1,
    (wlegl_create_lookup_or_open_failure env_no_module 1 State.fresh
      (Or.inl (by decide))).2.2.2.1⟩

/-- C3 at `env_no_global`, from the fresh state. -/
theorem wlegl_create_global_failure_witness :
    (wlegl_create env_no_global 1 State.fresh).calls.any Event.wl_global_create_failed =
      true ∧
    (wlegl_create env_no_global 1 State.fresh).ret = Outcome.returned 0 ∧
    (wlegl_create env_no_global 1 State.fresh).calls.countP Event.is_gralloc_close = 1 ∧
    (wlegl_create env_no_global 1 State.fresh).calls.countP Event.is_add_buffer_type = 0 :=
  ⟨by decide,
    (wlegl_create_global_failure env_no_global 1 State.fresh (by decide)).1,
    (wlegl_create_global_failure env_no_global 1 State.fresh (by decide)).2.2.1,
    (wlegl_create_global_failure env_no_global 1 State.fresh (by decide)).2.2.2.2.1⟩

/-- C4 at `env_ok`, from the fresh state. -/
theorem wlegl_create_success_witness :
    (wlegl_create env_ok 1 State.fresh).calls.any Event.failed = false ∧
    (wlegl_create env_ok 1 State.fresh).ret = Outcome.returned 9 ∧
    (wlegl_create env_ok 1 State.fresh).calls.countP Event.is_gralloc_open = 1 ∧
    (wlegl_create env_ok 1 State.fresh).calls.countP Event.is_add_buffer_type = 1 :=
  ⟨by decide,
    (wlegl_create_success env_ok 1 State.fresh (fun h => absurd rfl h) (by decide)).1,
    (wlegl_create_success env_ok 1 State.fresh (fun h => absurd rfl h) (by decide)).2.2.1,
    (wlegl_create_success env_ok 1 State.fresh
      (fun h => absurd rfl h) (by decide)).2.2.2.2.1⟩

/-- C5 at `env_ok`: the bridge `wlegl_create` returns at address 9 is destroyed. -/
theorem wlegl_destroy_after_create_witness :
    (wlegl_create env_ok 1 State.fresh).ret = Outcome.returned 9 ∧
    ∃ session global,
      (wlegl_destroy 9 (wlegl_create env_ok 1 State.fresh).state).calls =
        [Event.gralloc_close session, Event.wl_global_destroy global, Event.free 9] :=
  ⟨by decide,
    match wlegl_destroy_after_create env_ok 1 State.fresh 9 (by decide) (by decide) with
    | ⟨_, session, global, _, _, _, _, h, _⟩ => ⟨session, global, h⟩⟩

/-- C8 at two calls whose collaborators all succeed: the second call, made after
the first has looked the module up, calls neither `dlopen` nor `dlsym`. -/
theorem wlegl_create_seq_no_reload_witness :
    (wlegl_create env_ok 1 State.fresh).calls.any Event.is_hw_get_module = true ∧
    (wlegl_create env_ok 1 (wlegl_create env_ok 1 State.fresh).state).calls.countP
      Event.is_dlopen = 0 ∧
    (wlegl_create env_ok 1 (wlegl_create env_ok 1 State.fresh).state).calls.countP
      Event.is_dlsym = 0 :=
  ⟨by decide,
    (wlegl_create_seq_no_reload
      [{ env := env_ok, compositor := 1 }, { env := env_ok, compositor := 1 }]
      State.fresh 0 1 (wlegl_create env_ok 1 State.fresh)
      (wlegl_create env_ok 1 (wlegl_create env_ok 1 State.fresh).state)
      (by decide) rfl rfl (by decide)).1,
    (wlegl_create_seq_no_reload
      [{ env := env_ok, compositor := 1 }, { env := env_ok, compositor := 1 }]
      State.fresh 0 1 (wlegl_create env_ok 1 State.fresh)
      (wlegl_create env_ok 1 (wlegl_create env_ok 1 State.fresh).state)
      (by decide) rfl rfl (by decide)).2.1⟩

/-- C10 at `env_no_global`: the one session opened is closed once, by
`wlegl_create` itself, and no global is destroyed. -/
theorem wlegl_lifecycle_balanced_witness :
    State.fresh._libhardware = 0 ∧
    (wlegl_lifecycle env_no_global 1 State.fresh).ret = Outcome.returned () ∧
    (wlegl_lifecycle env_no_global 1 State.fresh).calls.countP Event.is_gralloc_close =
      (wlegl_lifecycle env_no_global 1 State.fresh).calls.countP Event.gralloc_open_ok ∧
    (wlegl_lifecycle env_no_global 1 State.fresh).calls.countP Event.gralloc_open_ok = 1 :=
  ⟨rfl, (wlegl_lifecycle_balanced env_no_global 1 State.fresh rfl).1,
    (wlegl_lifecycle_balanced env_no_global 1 State.fresh rfl).2.2.1, by decide⟩

end Wlegl
